import Mathlib

/-!
# Verification of the Identity-Matching & Attendance-Reconciliation Engine

A shallow embedding, in Lean 4, of the core logic of the face-recognition
attendance system:

* `database.py` — the attendance ledger (`mark_attendance`,
  `get_unsynced_attendance`, `mark_attendance_synced`,
  `get_attendance_stats`, `get_all_face_encodings`);
* `face_recognition_utils.py` — the gallery loader and the (mock)
  recognizer (`load_known_faces`, `recognize_faces`, `get_face_encoding`,
  `detect_faces`);
* `telegram_utils.py` — the sync reconciler (`send_attendance_report`,
  `sync_pending_attendance`).

Conventions of the embedding:

* SQLite rows become Lean structures; the `attendance` table is a list of
  records together with the next AUTOINCREMENT id.
* Strings stay strings ("YYYY-MM-DD" dates, "HH:MM:SS" times, statuses
  "present"/"absent"); SQL integer columns become `Nat`/`Int`.
* The ambient clock (`date.today()`, `datetime.now()`) is passed in as an
  explicit parameter, as is the external message transport
  (`send_message_sync`, an external collaborator: the embedding takes it
  as a function argument and records the reports handed to it, so that
  "number of transport calls" is observable).
* Floating-point vectors become `List ℚ` (the values actually produced by
  the code are exact: `np.ones(128)`).
* pandas dataframes become lists of joined-row structures; `ORDER BY` is
  an explicit stable insertion sort on the same sort keys.
-/

/-! ## Data model: rows of the SQLite tables -/

/-- A stored face-encoding payload (`students.face_encoding` BLOB).
`valid v` stands for a JSON payload (bytes or text) that decodes to the
vector `v`; `corrupt` stands for a payload whose decode raises, in which
case `database.py` substitutes the default all-ones 128-vector. -/
inductive Blob where
  | valid (v : List ℚ)
  | corrupt
deriving DecidableEq, Repr

/-- A row of the `students` table.  The `section` column is called `sect`
here because `section` is a Lean keyword. -/
structure Student where
  id : Nat
  roll_no : String
  name : String
  branch : String
  semester : Int
  sect : String
  email : String
  face_encoding : Option Blob
deriving DecidableEq, Repr

/-- A row of the `subjects` table. -/
structure Subject where
  id : Nat
  subject_code : String
  subject_name : String
  branch : String
  semester : Int
deriving DecidableEq, Repr

/-- A row of the `attendance` table. -/
structure AttendanceRecord where
  id : Nat
  student_id : Nat
  subject_id : Nat
  date : String
  time : String
  status : String
  synced : Bool
deriving DecidableEq, Repr

/-- The `attendance` table: its rows plus the next AUTOINCREMENT id. -/
structure AttendanceDB where
  records : List AttendanceRecord
  nextId : Nat
deriving DecidableEq, Repr

/-! ## `Database.mark_attendance` (database.py, lines 450-486)

The source checks `SELECT id FROM attendance WHERE student_id = ? AND
subject_id = ? AND date = ?` (first row, if any); on a hit it runs
`UPDATE attendance SET time = ?, status = ?, synced = ? WHERE id = ?`,
otherwise `INSERT INTO attendance (student_id, subject_id, date, time,
status, synced) VALUES (...)`.  `date.today()` and `datetime.now()` are
the `today`/`now` parameters. -/

/-- The uniqueness key of the ledger: does record `r` belong to
(student `sid`, subject `subid`, day `d`)? -/
def matchesKey (sid subid : Nat) (d : String) (r : AttendanceRecord) : Bool :=
  r.student_id == sid && r.subject_id == subid && r.date == d

/-- `Database.mark_attendance(student_id, subject_id, status="present",
sync=True)`, with the clock passed explicitly. -/
def mark_attendance (sid subid : Nat) (status : String) (sync : Bool)
    (today now : String) (db : AttendanceDB) : AttendanceDB :=
  match db.records.find? (matchesKey sid subid today) with
  | some ex =>
      { db with records := db.records.map (fun r =>
          if r.id == ex.id then { r with time := now, status := status, synced := sync } else r) }
  | none =>
      { records := db.records ++
          [⟨db.nextId, sid, subid, today, now, status, sync⟩],
        nextId := db.nextId + 1 }

/-- One call of a `mark_attendance` sequence sharing a fixed
(student, subject, day) key: the data that varies between calls. -/
structure MarkCall where
  status : String
  sync : Bool
  now : String
deriving DecidableEq, Repr

/-- A sequence of `mark_attendance` calls on the same key, applied
left to right. -/
def markSeq (sid subid : Nat) (today : String) (calls : List MarkCall)
    (db : AttendanceDB) : AttendanceDB :=
  calls.foldl (fun d c => mark_attendance sid subid c.status c.sync today c.now d) db

/-! ## Face recognition (`face_recognition_utils.py`)

The encoding provider is external (OpenCV Haar cascade): an `Image` is
modelled by the raw `(x, y, w, h)` rectangles the cascade detects in it
(`detectMultiScale` output), which is the only thing the code observes
about the image. -/

/-- An input image, abstracted to the face rectangles OpenCV detects in
it, each as `(x, y, w, h)`. -/
structure Image where
  faces : List (Nat × Nat × Nat × Nat)
deriving DecidableEq, Repr

/-- `FaceRecognitionUtils.detect_faces`: converts each cascade rectangle
`(x, y, w, h)` to the face-recognition-style location
`(top, right, bottom, left) = (y, x+w, y+h, x)`. -/
def detect_faces (image : Image) : List (Nat × Nat × Nat × Nat) :=
  image.faces.map (fun p => (p.2.1, p.1 + p.2.2.1, p.2.1 + p.2.2.2, p.1))

/-- The in-memory gallery snapshot held by `FaceRecognitionUtils`
(`known_face_encodings`, `known_face_names`, `known_face_ids`). -/
structure GalleryState where
  known_face_encodings : List (List ℚ)
  known_face_names : List String
  known_face_ids : List Nat
deriving DecidableEq, Repr

/-- `FaceRecognitionUtils.recognize_faces(image, tolerance=0.6)`: the
source is a mock — it detects face locations and returns the constant
name `"Student"` and the constant id `1` for every detected face; the
gallery snapshot `g` and the `tolerance` argument are not consulted. -/
def recognize_faces (g : GalleryState) (image : Image) (tolerance : ℚ) :
    List (Nat × Nat × Nat × Nat) × List String × List Nat :=
  let face_locations := detect_faces image
  let face_names := face_locations.map (fun _ => "Student")
  let face_ids := face_locations.map (fun _ => 1)
  (face_locations, face_names, face_ids)

/-- `FaceRecognitionUtils.get_face_encoding(image)`: `(encoding, error)`;
rejects zero faces and more than one face, and otherwise returns the
placeholder `np.ones(128)` encoding. -/
def get_face_encoding (image : Image) : Option (List ℚ) × Option String :=
  let face_locations := detect_faces image
  if face_locations.isEmpty then
    (none, some "No face detected in the image")
  else if face_locations.length > 1 then
    (none, some "Multiple faces detected. Please provide an image with a single face.")
  else
    (some (List.replicate 128 (1 : ℚ)), none)

/-- A row of the result of `Database.get_all_face_encodings`. -/
structure FaceRow where
  id : Nat
  roll_no : String
  name : String
  face_encoding : List ℚ
deriving DecidableEq, Repr

/-- Decode a stored `face_encoding` payload the way `database.py` does:
a payload that decodes is returned as stored, a payload whose decode
raises is replaced by the default `np.ones(128)` vector. -/
def decodeBlob : Blob → List ℚ
  | .valid v => v
  | .corrupt => List.replicate 128 (1 : ℚ)

/-- `Database.get_all_face_encodings` (database.py, lines 282-319): the
identity store is the argument; `.error` is a store whose read raises, in
which case the exception handler returns the empty list.  On success the
rows with a non-NULL `face_encoding` are decoded. -/
def get_all_face_encodings (store : Except String (List Student)) : List FaceRow :=
  match store with
  | .error _ => []
  | .ok rows => rows.filterMap (fun s =>
      match s.face_encoding with
      | none => none
      | some b => some ⟨s.id, s.roll_no, s.name, decodeBlob b⟩)

/-- `FaceRecognitionUtils.load_known_faces`: re-reads the identity store,
unconditionally replaces the three in-memory lists with what was read,
and returns the count of rows read (the previous snapshot `g` is
discarded on every path). -/
def load_known_faces (store : Except String (List Student)) (g : GalleryState) :
    GalleryState × Nat :=
  let students := get_all_face_encodings store
  ({ known_face_encodings := students.map (fun s => s.face_encoding),
     known_face_names := students.map (fun s => s.name ++ " (" ++ s.roll_no ++ ")"),
     known_face_ids := students.map (fun s => s.id) },
   students.length)

/-! ## The sync reconciler (`telegram_utils.py` and the unsynced view)

`ORDER BY` is modelled by a stable insertion sort on the SQL sort key;
SQL leaves the relative order of ties unspecified, so the claims below
are stated up to membership where order could matter. -/

/-- Insert `x` into `l` before the first element `y` with `le x y`. -/
def insertBy (le : α → α → Bool) (x : α) : List α → List α
  | [] => [x]
  | y :: ys => if le x y then x :: y :: ys else y :: insertBy le x ys

/-- Stable insertion sort by the boolean comparison `le`. -/
def sortBy (le : α → α → Bool) (l : List α) : List α :=
  l.foldr (insertBy le) []

/-- A row of the dataframe produced by `Database.get_unsynced_attendance`
(database.py, lines 550-580): the attendance row joined with its student
and subject rows, under the renamed dataframe columns. -/
structure JoinedRow where
  id : Nat
  date : String
  time : String
  status : String
  student_id : Nat
  roll_no : String
  student_name : String
  branch : String
  semester : Int
  sect : String
  subject_id : Nat
  subject_code : String
  subject_name : String
deriving DecidableEq, Repr

/-- The `JOIN students ... JOIN subjects ...` of one attendance row:
`none` when either foreign key dangles (the row silently drops out of the
join). -/
def joinRow (students : List Student) (subjects : List Subject)
    (a : AttendanceRecord) : Option JoinedRow :=
  match students.find? (fun s => s.id == a.student_id),
        subjects.find? (fun s => s.id == a.subject_id) with
  | some s, some sub =>
      some ⟨a.id, a.date, a.time, a.status, s.id, s.roll_no, s.name, s.branch,
        s.semester, s.sect, sub.id, sub.subject_code, sub.subject_name⟩
  | _, _ => none

/-- The unsynced join before `ORDER BY`. -/
def unsyncedRows (students : List Student) (subjects : List Subject)
    (db : AttendanceDB) : List JoinedRow :=
  (db.records.filter (fun a => a.synced == false)).filterMap (joinRow students subjects)

/-- `ORDER BY a.date DESC, a.time DESC`. -/
def rowLe (r1 r2 : JoinedRow) : Bool :=
  decide (r2.date < r1.date) || (r1.date == r2.date && !(decide (r1.time < r2.time)))

/-- `Database.get_unsynced_attendance`: records with `synced = FALSE`,
joined with students and subjects, most recent date/time first. -/
def get_unsynced_attendance (students : List Student) (subjects : List Subject)
    (db : AttendanceDB) : List JoinedRow :=
  sortBy rowLe (unsyncedRows students subjects db)

/-- `Database.mark_attendance_synced` (database.py, lines 582-600):
`UPDATE attendance SET synced = TRUE WHERE id = ?`. -/
def mark_attendance_synced (db : AttendanceDB) (i : Nat) : AttendanceDB :=
  { db with records := db.records.map (fun r =>
      if r.id == i then { r with synced := true } else r) }

/-- The formatted attendance report handed to the transport, as the
fields interpolated into the message string of
`TelegramBot.send_attendance_report` (the percentage line is derived
from `present`/`total` and the two counts are already here). -/
structure Report where
  dateStr : String
  subject_name : String
  subject_code : String
  total : Nat
  present : Nat
  absent : Nat
  presentStudents : List (String × String)
  absentStudents : List (String × String)
  generatedAt : String
deriving DecidableEq, Repr

/-- Format the report for a non-empty batch, `r0` being its first row
(`iloc[0]`). -/
def mkReport (now : String) (r0 : JoinedRow) (rows : List JoinedRow) : Report :=
  let presentRows := rows.filter (fun r => r.status == "present")
  let absentRows := rows.filter (fun r => r.status == "absent")
  ⟨r0.date, r0.subject_name, r0.subject_code, rows.length, presentRows.length,
   rows.length - presentRows.length,
   presentRows.map (fun r => (r.student_name, r.roll_no)),
   absentRows.map (fun r => (r.student_name, r.roll_no)), now⟩

/-- The external transport (`send_message_sync` seen through the message
fields): delivery of a report yields a success flag and a message. -/
def Transport : Type := Report → Bool × String

/-- `TelegramBot.send_attendance_report` (telegram_utils.py, lines
35-87), with the transport passed explicitly: an empty batch is refused;
otherwise the report is handed to the transport and, only on a success
signal, every row of the batch is marked synced.  The fourth component
records the report handed to the transport, if any. -/
def send_attendance_report (transport : Transport) (now : String)
    (db : AttendanceDB) (attendance_data : List JoinedRow) :
    AttendanceDB × Bool × String × Option Report :=
  match attendance_data with
  | [] => (db, false, "No attendance data to send", none)
  | r0 :: rest =>
      let report := mkReport now r0 (r0 :: rest)
      let res := transport report
      if res.1 then
        ((r0 :: rest).foldl (fun d r => mark_attendance_synced d r.id) db,
         res.1, res.2, some report)
      else
        (db, res.1, res.2, some report)

/-- The grouping key of `groupby(["date", "subject_id"])`. -/
def rowKey (r : JoinedRow) : String × Nat := (r.date, r.subject_id)

/-- Ascending order on group keys (pandas iterates groups by sorted key). -/
def keyLe (k1 k2 : String × Nat) : Bool :=
  decide (k1.1 < k2.1) || (k1.1 == k2.1 && decide (k1.2 ≤ k2.2))

/-- The distinct (date, subject_id) group keys of the unsynced view, in
ascending order. -/
def groupKeys (rows : List JoinedRow) : List (String × Nat) :=
  sortBy keyLe (rows.map rowKey).dedup

/-- The rows of one `groupby` group, in view order. -/
def batchFor (rows : List JoinedRow) (k : String × Nat) : List JoinedRow :=
  rows.filter (fun r => rowKey r == k)

/-- The loop state of `sync_pending_attendance`: the evolving database
plus the `success_count` / `error_messages` accumulators of the source,
and the list of reports handed to the transport so far (the observable
transport calls). -/
structure SyncLoopState where
  db : AttendanceDB
  success_count : Nat
  error_messages : List String
  calls : List Report
deriving Repr

/-- One iteration of the batch loop of `sync_pending_attendance`. -/
def syncStep (transport : Transport) (now : String) (unsynced : List JoinedRow)
    (st : SyncLoopState) (k : String × Nat) : SyncLoopState :=
  let r := send_attendance_report transport now st.db (batchFor unsynced k)
  { db := r.1,
    success_count := if r.2.1 then st.success_count + 1 else st.success_count,
    error_messages := if r.2.1 then st.error_messages else st.error_messages ++ [r.2.2.1],
    calls := st.calls ++ r.2.2.2.toList }

/-- The result of `TelegramBot.sync_pending_attendance` (telegram_utils.py,
lines 89-115): the source returns `(ok, message)`; the embedding also
carries the final database, the `error_messages` accumulator (which the
source folds into `message`), the success count, and the reports handed
to the transport. -/
structure SyncResult where
  db : AttendanceDB
  ok : Bool
  message : String
  calls : List Report
  errors : List String
  success_count : Nat
deriving Repr

/-- `TelegramBot.sync_pending_attendance`: read the unsynced view, return
early if it is empty, otherwise group it by (date, subject_id) and send
one report per batch, accumulating successes and failure reasons. -/
def sync_pending_attendance (transport : Transport) (now : String)
    (students : List Student) (subjects : List Subject) (db : AttendanceDB) :
    SyncResult :=
  let unsynced := get_unsynced_attendance students subjects db
  if unsynced.isEmpty then
    ⟨db, true, "No pending attendance to sync", [], [], 0⟩
  else
    let res := (groupKeys unsynced).foldl (syncStep transport now unsynced) ⟨db, 0, [], []⟩
    if res.error_messages.isEmpty then
      ⟨res.db, true,
       "Successfully synced " ++ toString res.success_count ++ " attendance reports",
       res.calls, res.error_messages, res.success_count⟩
    else
      ⟨res.db, false,
       "Synced " ++ toString res.success_count ++ " reports, " ++
         toString res.error_messages.length ++ " failed: " ++
         String.intercalate ", " res.error_messages,
       res.calls, res.error_messages, res.success_count⟩

/-! ## Characterizing one reconciliation run -/

/-- Mark every record whose id is in `ids` as synced. -/
def markRecords (ids : List Nat) (db : AttendanceDB) : AttendanceDB :=
  { db with records := db.records.map (fun r =>
      if r.id ∈ ids then { r with synced := true } else r) }

/-- The report `sync_pending_attendance` renders for group key `k` of the
view `rows` (`none` when the group is empty, which cannot happen for a
key of `groupKeys rows`). -/
def reportForKey (now : String) (rows : List JoinedRow) (k : String × Nat) :
    Option Report :=
  match batchFor rows k with
  | [] => none
  | r0 :: rest => some (mkReport now r0 (r0 :: rest))

/-- Did the transport confirm success for the batch of key `k`? -/
def keyOk (transport : Transport) (now : String) (rows : List JoinedRow)
    (k : String × Nat) : Bool :=
  match reportForKey now rows k with
  | none => false
  | some rep => (transport rep).1

/-- The outcome message for the batch of key `k`. -/
def keyMsg (transport : Transport) (now : String) (rows : List JoinedRow)
    (k : String × Nat) : String :=
  match reportForKey now rows k with
  | none => "No attendance data to send"
  | some rep => (transport rep).2

/-- The record ids of all batches whose delivery the transport confirmed. -/
def okIds (transport : Transport) (now : String) (rows : List JoinedRow)
    (keys : List (String × Nat)) : List Nat :=
  (keys.filter (keyOk transport now rows)).flatMap
    (fun k => (batchFor rows k).map (fun r => r.id))

/-- Scenario D data: one student. -/
def wStudents : List Student := [⟨1, "R1", "Alice", "CSE", 3, "A", "", none⟩]

/-- Scenario D data: two subjects ACT1 and ACT2. -/
def wSubjects : List Subject :=
  [⟨1, "ACT1", "Algo", "CSE", 3⟩, ⟨2, "ACT2", "Data", "CSE", 3⟩]

/-- Scenario D data: two pending records, one per subject, same date. -/
def wDB : AttendanceDB :=
  ⟨[⟨1, 1, 1, "2024-01-10", "09:00:00", "present", false⟩,
    ⟨2, 1, 2, "2024-01-10", "09:05:00", "present", false⟩], 3⟩

/-- Scenario D transport: fails exactly the ACT1 batch. -/
def wTransport : Transport :=
  fun rep => if rep.subject_code = "ACT1" then (false, "network down") else (true, "ok")

/-! ## `Database.get_attendance_stats` (database.py, lines 667-778)

The source builds a `conditions` list of SQL fragments and a `params`
list of values in lockstep (order: date, subject, branch, semester,
section; an argument is used only when it is Python-truthy).  The total
query has placeholders only for the organizational conditions
(branch/semester/section) but is bound with
`[p for p in params if p in [branch, semester, section]]` — a filter of
the parameter VALUES against the raw argument values.  SQLite raises on a
placeholder/parameter count mismatch, and the surrounding handler then
returns all-zero statistics.  The by-branch and by-subject dataframes of
the source result are presentational groupings of the same filtered join
and are not modelled. -/

/-- A parameter value bound into a query (a TEXT or INTEGER argument). -/
inductive Val where
  | str (s : String)
  | int (n : Int)
deriving DecidableEq, Repr

/-- Python truthiness of a filter argument (`if branch:` and friends). -/
def Val.truthy : Val → Bool
  | .str s => s != ""
  | .int n => n != 0

/-- The filter arguments of `get_attendance_stats` (the `section` column
again appears as `sect`). -/
structure StatsFilters where
  date_filter : Option String
  subject_id : Option Int
  branch : Option String
  semester : Option Int
  sect : Option String
deriving DecidableEq, Repr

/-- Which SQL condition a (condition, parameter) pair stands for. -/
inductive CondTag where
  | date
  | subject
  | branch
  | semester
  | sect
deriving DecidableEq, Repr

/-- The (condition, parameter) contribution of one optional argument:
present and truthy contributes one pair, otherwise nothing. -/
def optCond (t : CondTag) (v : Option Val) : List (CondTag × Val) :=
  match v with
  | some x => if x.truthy then [(t, x)] else []
  | none => []

/-- The date/subject (attendance-side) conditions, in source order. -/
def dsConds (f : StatsFilters) : List (CondTag × Val) :=
  optCond .date (f.date_filter.map Val.str) ++ optCond .subject (f.subject_id.map Val.int)

/-- The organizational (student-side) conditions, in source order. -/
def orgConds (f : StatsFilters) : List (CondTag × Val) :=
  optCond .branch (f.branch.map Val.str) ++ optCond .semester (f.semester.map Val.int) ++
    optCond .sect (f.sect.map Val.str)

/-- All conditions of the `where_clause`, in source order. -/
def allConds (f : StatsFilters) : List (CondTag × Val) :=
  dsConds f ++ orgConds f

/-- The Python list `[branch, semester, section]` of raw argument values
(`none` standing for Python `None`). -/
def orgRaw (f : StatsFilters) : List (Option Val) :=
  [f.branch.map Val.str, f.semester.map Val.int, f.sect.map Val.str]

/-- `[p for p in params if p in [branch, semester, section]]`: the
parameters actually bound to the total query. -/
def keptParams (f : StatsFilters) : List Val :=
  ((allConds f).map Prod.snd).filter (fun p => (some p) ∈ orgRaw f)

/-- Evaluate one bound condition against a joined (attendance, student)
row pair. -/
def evalCond (t : CondTag) (v : Val) (a : AttendanceRecord) (s : Student) : Bool :=
  match t with
  | .date => Val.str a.date == v
  | .subject => Val.int (Int.ofNat a.subject_id) == v
  | .branch => Val.str s.branch == v
  | .semester => Val.int s.semester == v
  | .sect => Val.str s.sect == v

/-- Evaluate one bound organizational condition against a student row
(the total query joins no attendance). -/
def evalStudentCond (t : CondTag) (v : Val) (s : Student) : Bool :=
  match t with
  | .branch => Val.str s.branch == v
  | .semester => Val.int s.semester == v
  | .sect => Val.str s.sect == v
  | .date => false
  | .subject => false

/-- `COUNT(DISTINCT ...)` of a list of ids. -/
def countDistinctIds (l : List Nat) : Nat := l.dedup.length

/-- The total query: organizational placeholders bound positionally with
the kept parameters; a count mismatch is a sqlite binding error
(`none`). -/
def total_query_result (f : StatsFilters) (students : List Student) : Option Nat :=
  let tags := (orgConds f).map Prod.fst
  let bound := keptParams f
  if tags.length = bound.length then
    some (countDistinctIds ((students.filter (fun s =>
      (tags.zip bound).all (fun c => evalStudentCond c.1 c.2 s))).map (fun s => s.id)))
  else
    none

/-- The present query: attendance joined with students, all conditions
plus `status = 'present'`, counting distinct student ids (its parameter
list always matches its placeholders by construction). -/
def present_query_result (f : StatsFilters) (students : List Student)
    (db : AttendanceDB) : Nat :=
  countDistinctIds ((db.records.filter (fun a =>
    match students.find? (fun s => s.id == a.student_id) with
    | none => false
    | some s => ((allConds f).all (fun c => evalCond c.1 c.2 a s)) && a.status == "present")).map
    (fun a => a.student_id))

/-- The `{total, present, absent}` counts of the stats result (the two
per-branch/per-subject dataframes are presentational and omitted). -/
structure Stats where
  total : Int
  present : Int
  absent : Int
deriving DecidableEq, Repr

/-- `Database.get_attendance_stats`: a binding error in the total query
is caught by the handler, which returns all-zero statistics; otherwise
`absent = total - present`. -/
def get_attendance_stats (f : StatsFilters) (students : List Student)
    (db : AttendanceDB) : Stats :=
  match total_query_result f students with
  | none => ⟨0, 0, 0⟩
  | some t =>
      let p := present_query_result f students db
      ⟨Int.ofNat t, Int.ofNat p, Int.ofNat t - Int.ofNat p⟩

/-- The spec-side organizational filter on students, written directly
from the claim: each provided (truthy) organizational argument must
match the student's column. -/
def orgMatch (f : StatsFilters) (s : Student) : Bool :=
  (match f.branch with
   | some b => if b != "" then s.branch == b else true
   | none => true) &&
  (match f.semester with
   | some m => if m != 0 then s.semester == m else true
   | none => true) &&
  (match f.sect with
   | some c => if c != "" then s.sect == c else true
   | none => true)

/-- Stats scenario data: three students of semester 2. -/
def c8Students : List Student :=
  [⟨1, "R1", "A", "CSE", 2, "A", "", none⟩,
   ⟨2, "R2", "B", "CSE", 2, "A", "", none⟩,
   ⟨3, "R3", "C", "CSE", 2, "A", "", none⟩]

/-- Stats scenario data: two present records for subject 2. -/
def c8DB : AttendanceDB :=
  ⟨[⟨1, 1, 2, "2024-01-10", "09:00", "present", false⟩,
    ⟨2, 2, 2, "2024-01-10", "09:01", "present", false⟩], 3⟩

/-- Stats scenario data: the same two present records, for subject 1. -/
def c8DBScenE : AttendanceDB :=
  ⟨[⟨1, 1, 1, "2024-01-10", "09:00", "present", false⟩,
    ⟨2, 2, 1, "2024-01-10", "09:01", "present", false⟩], 3⟩

example :
    (mark_attendance 1 2 "present" false "2024-01-10" "09:00:00" ⟨[], 1⟩).records =
      [⟨1, 1, 2, "2024-01-10", "09:00:00", "present", false⟩] := by decide

example :
    ((markSeq 1 2 "2024-01-10"
      [⟨"present", false, "09:00:00"⟩, ⟨"absent", false, "10:00:00"⟩] ⟨[], 1⟩).records.filter
        (matchesKey 1 2 "2024-01-10")).length = 1 := by decide

/-! ## Ledger lemmas for `mark_attendance` -/

/-- The update branch of `mark_attendance` changes only `time`, `status`
and `synced`, so it preserves the uniqueness key. -/
lemma matchesKey_update (sid subid : Nat) (d : String) (r : AttendanceRecord)
    (t st : String) (sy : Bool) :
    matchesKey sid subid d { r with time := t, status := st, synced := sy } =
      matchesKey sid subid d r := rfl

/-- Filtering by the key commutes with a map that preserves the key. -/
lemma filter_key_map (sid subid : Nat) (d : String)
    (f : AttendanceRecord → AttendanceRecord)
    (hf : ∀ r, matchesKey sid subid d (f r) = matchesKey sid subid d r)
    (l : List AttendanceRecord) :
    (l.map f).filter (matchesKey sid subid d) =
      (l.filter (matchesKey sid subid d)).map f := by
  induction l with
  | nil => simp
  | cons a t ih =>
      cases hk : matchesKey sid subid d a <;>
        simp [List.filter_cons, hf a, hk, ih]

/-- Workhorse lemma: starting from a ledger with at most one record for the
key, a single `mark_attendance` call ends with exactly one record for the
key, carrying the call's time, status and `sync` flag. -/
lemma mark_attendance_key_filter (sid subid : Nat) (status : String) (sync : Bool)
    (today now : String) (db : AttendanceDB)
    (h : (db.records.filter (matchesKey sid subid today)).length ≤ 1) :
    ∃ i, (mark_attendance sid subid status sync today now db).records.filter
        (matchesKey sid subid today) = [⟨i, sid, subid, today, now, status, sync⟩] := by
  unfold mark_attendance
  cases hfind : db.records.find? (matchesKey sid subid today) with
  | some ex =>
      have hp : matchesKey sid subid today ex = true := List.find?_some hfind
      have hmem : ex ∈ db.records := List.mem_of_find?_eq_some hfind
      have hexf : ex ∈ db.records.filter (matchesKey sid subid today) :=
        List.mem_filter.mpr ⟨hmem, hp⟩
      have hlen1 : (db.records.filter (matchesKey sid subid today)).length = 1 := by
        have := List.length_pos_of_mem hexf
        omega
      obtain ⟨a, ha⟩ := List.length_eq_one.mp hlen1
      have hae : a = ex := by
        rw [ha] at hexf
        exact (List.mem_singleton.mp hexf).symm
      subst hae
      refine ⟨a.id, ?_⟩
      rw [filter_key_map sid subid today _
        (fun r => by
          by_cases hid : r.id == a.id <;>
            simp [hid, matchesKey_update]), ha]
      have hk := hp
      simp only [matchesKey, Bool.and_eq_true, beq_iff_eq] at hk
      obtain ⟨⟨h1, h2⟩, h3⟩ := hk
      simp [h1, h2, h3]
  | none =>
      have hforall := List.find?_eq_none.mp hfind
      have hfl : db.records.filter (matchesKey sid subid today) = [] :=
        List.filter_eq_nil_iff.mpr hforall
      refine ⟨db.nextId, ?_⟩
      simp [List.filter_append, hfl, matchesKey]

/-- Claim C1: for every sequence of `mark_attendance` calls sharing the same
(student, subject, date) key, starting from any ledger with at most one
record for that key, the ledger ends with exactly one record for that key,
and that record's status and time (and `sync` flag) are those of the last
call of the sequence. -/
theorem C1_mark_sequence_last_call_wins (sid subid : Nat) (today : String)
    (calls : List MarkCall) (db : AttendanceDB) (clast : MarkCall)
    (hlast : calls.getLast? = some clast)
    (h : (db.records.filter (matchesKey sid subid today)).length ≤ 1) :
    ∃ i, (markSeq sid subid today calls db).records.filter
        (matchesKey sid subid today) =
      [⟨i, sid, subid, today, clast.now, clast.status, clast.sync⟩] := by
  induction calls generalizing db with
  | nil => simp at hlast
  | cons c rest ih =>
      obtain ⟨i, hi⟩ := mark_attendance_key_filter sid subid c.status c.sync today c.now db h
      cases rest with
      | nil =>
          have hc : c = clast := by simpa using hlast
          subst hc
          exact ⟨i, by simpa [markSeq] using hi⟩
      | cons c2 rest2 =>
          have hlast2 : (c2 :: rest2).getLast? = some clast := by
            simpa [List.getLast?_cons_cons] using hlast
          have h1 : (((mark_attendance sid subid c.status c.sync today c.now db).records.filter
              (matchesKey sid subid today)).length ≤ 1) := by rw [hi]; simp
          have := ih _ hlast2 h1
          simpa [markSeq, List.foldl_cons] using this

/-- Witness for C1 at a concrete input: two calls on the same key applied to
the empty ledger leave exactly one record, that of the second call. -/
theorem C1_witness :
    ∃ i, (markSeq 1 2 "2024-01-10"
        [⟨"present", false, "09:00:00"⟩, ⟨"absent", false, "10:15:00"⟩]
        ⟨[], 1⟩).records.filter (matchesKey 1 2 "2024-01-10") =
      [⟨i, 1, 2, "2024-01-10", "10:15:00", "absent", false⟩] :=
  C1_mark_sequence_last_call_wins 1 2 "2024-01-10"
    [⟨"present", false, "09:00:00"⟩, ⟨"absent", false, "10:15:00"⟩]
    ⟨[], 1⟩ ⟨"absent", false, "10:15:00"⟩ (by decide) (by decide)

/-- Claim C6, counterexample: the claim says a `mark_attendance` call whose
key has no record inserts a record with `synced = false`.  But the source
writes `synced = sync` with default `sync=True` on both branches: calling
`mark_attendance` with its default `sync` argument on the empty ledger
inserts a record with `synced = true`. -/
theorem C6_counterexample :
    ¬ (∀ r ∈ (mark_attendance 1 2 "present" true "2024-01-10" "09:00:00"
        ⟨[], 1⟩).records, r.synced = false) := by decide

/-- Claim C6 as amended: `mark_attendance` always overwrites the record's
`synced` flag with its `sync` argument — an update sets `synced := sync`
rather than leaving it untouched, and an insert sets `synced := sync`
rather than `false` (the attendance pages pass `sync=False`, so records
they write are left pending). -/
theorem C6_mark_sets_synced_to_sync_argument (sid subid : Nat) (status : String)
    (sync : Bool) (today now : String) (db : AttendanceDB)
    (h : (db.records.filter (matchesKey sid subid today)).length ≤ 1) :
    ∃ i, (mark_attendance sid subid status sync today now db).records.filter
        (matchesKey sid subid today) = [⟨i, sid, subid, today, now, status, sync⟩] :=
  mark_attendance_key_filter sid subid status sync today now db h

/-- Witness for the amended C6: marking over an already-synced record with
`sync=False` resets its flag to pending. -/
theorem C6_witness :
    ∃ i, (mark_attendance 7 9 "present" false "2024-01-10" "11:00:00"
        ⟨[⟨3, 7, 9, "2024-01-10", "08:00:00", "present", true⟩], 4⟩).records.filter
        (matchesKey 7 9 "2024-01-10") =
      [⟨i, 7, 9, "2024-01-10", "11:00:00", "present", false⟩] :=
  C6_mark_sets_synced_to_sync_argument 7 9 "present" false "2024-01-10" "11:00:00"
    ⟨[⟨3, 7, 9, "2024-01-10", "08:00:00", "present", true⟩], 4⟩ (by decide)

example : (recognize_faces ⟨[], [], []⟩ ⟨[(0, 0, 10, 10)]⟩ (3/5)).2.2 = [1] := by decide

example : (get_face_encoding ⟨[]⟩).2 = some "No face detected in the image" := by decide

/-- Claim C2 (code bug): the spec describes a nearest-neighbor matcher
that returns "unknown" when the minimum gallery distance exceeds the
threshold.  The source of `recognize_faces` is an acknowledged mock
("actual implementation would use face_recognition") that returns the
constant identity `1` and name `"Student"` for every detected face: with
gallery `{S1 : v1}` (stored here under id 5), one detected face and
threshold `0.6`, it returns identity `1` — never "unknown", whatever the
observed vector's distance (`0.9` in the failing scenario) is, since no
distance is ever computed. -/
theorem C2_mock_recognizer_returns_constant_identity :
    (recognize_faces ⟨[[0, 0]], ["S1 (R1)"], [5]⟩ ⟨[(10, 20, 30, 40)]⟩ (3/5)).2.2 = [1] ∧
    (recognize_faces ⟨[[0, 0]], ["S1 (R1)"], [5]⟩ ⟨[(10, 20, 30, 40)]⟩ (3/5)).2.1 =
      ["Student"] := by decide

/-- Claim C9: for a fixed gallery and image, the identities matched at a
stricter threshold `t2` are a subset of those matched at a looser
`t1 < t2`.  This holds of the source — degenerately, because the mock
`recognize_faces` ignores its `tolerance` argument, so the matched set is
the same at every threshold. -/
theorem C9_matched_set_antitone_in_threshold (g : GalleryState) (image : Image)
    (t1 t2 : ℚ) (h : t1 < t2) :
    ∀ i ∈ (recognize_faces g image t2).2.2, i ∈ (recognize_faces g image t1).2.2 :=
  fun _ hi => hi

/-- Witness for C9 at concrete thresholds `0.5 < 0.6`. -/
theorem C9_witness :
    (1 : ℚ)/2 < 3/5 ∧
      ∀ i ∈ (recognize_faces ⟨[[0, 0]], ["S1 (R1)"], [5]⟩ ⟨[(10, 20, 30, 40)]⟩ (3/5)).2.2,
        i ∈ (recognize_faces ⟨[[0, 0]], ["S1 (R1)"], [5]⟩ ⟨[(10, 20, 30, 40)]⟩ ((1 : ℚ)/2)).2.2 :=
  ⟨by norm_num,
   C9_matched_set_antitone_in_threshold ⟨[[0, 0]], ["S1 (R1)"], [5]⟩
     ⟨[(10, 20, 30, 40)]⟩ ((1 : ℚ)/2) (3/5) (by norm_num)⟩

/-- Claim C10: enrollment encoding fails (no encoding, an error message)
iff the number of detected faces is not exactly one, and on exactly one
detected face it returns the constant all-ones 128-dimensional vector,
independent of the image content. -/
theorem C10_encoding_iff_exactly_one_face (image : Image) :
    ((get_face_encoding image).1 = none ↔ (detect_faces image).length ≠ 1) ∧
    ((get_face_encoding image).2.isSome = true ↔ (detect_faces image).length ≠ 1) ∧
    ((detect_faces image).length = 1 →
      get_face_encoding image = (some (List.replicate 128 (1 : ℚ)), none)) := by
  rcases hd : detect_faces image with - | ⟨a, - | ⟨b, t⟩⟩ <;>
    simp [get_face_encoding, hd]

/-- Witness for C10 at an image with exactly one detected face. -/
theorem C10_witness :
    get_face_encoding ⟨[(0, 0, 5, 5)]⟩ = (some (List.replicate 128 (1 : ℚ)), none) :=
  (C10_encoding_iff_exactly_one_face ⟨[(0, 0, 5, 5)]⟩).2.2 (by decide)

/-- Claim C7, counterexample: the claim says that when the identity store
is unreachable the previously loaded snapshot is retained unchanged.  In
the source, `get_all_face_encodings` swallows the exception and returns
`[]`, and `load_known_faces` unconditionally replaces the in-memory
lists: a non-empty prior snapshot is NOT retained. -/
theorem C7_counterexample :
    ¬ ((load_known_faces (.error "identity store unreachable")
        ⟨[[2, 2]], ["Alice (R1)"], [7]⟩).1 =
      ⟨[[2, 2]], ["Alice (R1)"], [7]⟩) := by decide

/-- Claim C7 as amended: if the identity store is unreachable, the reload
replaces the previous snapshot with the empty gallery and reports a count
of zero; there is no separate error signal (an empty store and a failed
store are indistinguishable to the caller), and the matcher subsequently
operates on the empty — not partially loaded — gallery. -/
theorem C7_reload_failure_empties_gallery (err : String) (g : GalleryState) :
    load_known_faces (.error err) g = (⟨[], [], []⟩, 0) := rfl

lemma insertBy_perm (le : α → α → Bool) (x : α) (l : List α) :
    List.Perm (insertBy le x l) (x :: l) := by
  induction l with
  | nil => exact List.Perm.refl [x]
  | cons y ys ih =>
      cases h : le x y <;> simp only [insertBy, h]
      · exact (ih.cons y).trans (List.Perm.swap x y ys)
      · simp

lemma sortBy_perm (le : α → α → Bool) (l : List α) :
    List.Perm (sortBy le l) l := by
  induction l with
  | nil => exact List.Perm.refl []
  | cons a t ih => exact (insertBy_perm le a (sortBy le t)).trans (ih.cons a)

lemma mem_sortBy (le : α → α → Bool) (l : List α) (x : α) :
    x ∈ sortBy le l ↔ x ∈ l := (sortBy_perm le l).mem_iff

lemma sortBy_eq_nil (le : α → α → Bool) (l : List α) :
    sortBy le l = [] ↔ l = [] := by
  constructor
  · intro h
    have hp := sortBy_perm le l
    rw [h] at hp
    exact hp.symm.eq_nil
  · intro h; subst h; rfl

lemma setSynced_id (r : AttendanceRecord) :
    ({ r with synced := true } : AttendanceRecord).id = r.id := rfl

lemma markRecords_nil (db : AttendanceDB) : markRecords [] db = db := by
  simp [markRecords]

lemma markRecords_append (xs ys : List Nat) (db : AttendanceDB) :
    markRecords (xs ++ ys) db = markRecords ys (markRecords xs db) := by
  unfold markRecords
  simp only [List.map_map]
  congr 1
  apply List.map_congr_left
  intro r _
  by_cases h1 : r.id ∈ xs <;> by_cases h2 : r.id ∈ ys <;>
    simp [Function.comp, h1, h2, setSynced_id, List.mem_append]

lemma mark_attendance_synced_eq (db : AttendanceDB) (i : Nat) :
    mark_attendance_synced db i = markRecords [i] db := by
  unfold mark_attendance_synced markRecords
  congr 1
  apply List.map_congr_left
  intro r _
  by_cases h : r.id = i <;> simp [h]

lemma foldl_mark_synced (rows : List JoinedRow) (db : AttendanceDB) :
    rows.foldl (fun d r => mark_attendance_synced d r.id) db =
      markRecords (rows.map (fun r => r.id)) db := by
  induction rows generalizing db with
  | nil => simp [markRecords_nil]
  | cons r rs ih =>
      rw [List.foldl_cons, ih, mark_attendance_synced_eq]
      simp only [List.map_cons]
      rw [show (r.id :: rs.map (fun r => r.id)) =
        [r.id] ++ rs.map (fun r => r.id) from rfl, markRecords_append]

lemma syncStep_eq (transport : Transport) (now : String)
    (unsynced : List JoinedRow) (st : SyncLoopState) (k : String × Nat) :
    syncStep transport now unsynced st k =
      ⟨ (if keyOk transport now unsynced k then
           markRecords ((batchFor unsynced k).map (fun r => r.id)) st.db else st.db),
        (if keyOk transport now unsynced k then st.success_count + 1
         else st.success_count),
        (if keyOk transport now unsynced k then st.error_messages
         else st.error_messages ++ [keyMsg transport now unsynced k]),
        st.calls ++ (reportForKey now unsynced k).toList ⟩ := by
  unfold syncStep send_attendance_report keyOk keyMsg reportForKey
  cases hb : batchFor unsynced k with
  | nil => simp
  | cons r0 rest =>
      cases htr : (transport (mkReport now r0 (r0 :: rest))).1
      · simp [htr]
      · simp [htr]
        rw [foldl_mark_synced, mark_attendance_synced_eq, ← markRecords_append,
          List.singleton_append]

lemma foldl_syncStep_spec (transport : Transport) (now : String)
    (unsynced : List JoinedRow) (keys : List (String × Nat)) (st : SyncLoopState) :
    keys.foldl (syncStep transport now unsynced) st =
      ⟨ markRecords (okIds transport now unsynced keys) st.db,
        st.success_count + (keys.filter (keyOk transport now unsynced)).length,
        st.error_messages ++
          ((keys.filter (fun k => !(keyOk transport now unsynced k))).map
            (keyMsg transport now unsynced)),
        st.calls ++ keys.filterMap (reportForKey now unsynced) ⟩ := by
  induction keys generalizing st with
  | nil => simp [okIds, markRecords_nil]
  | cons k ks ih =>
      rw [List.foldl_cons, ih, syncStep_eq]
      cases hok : keyOk transport now unsynced k <;>
        cases hrep : reportForKey now unsynced k <;>
          simp [okIds, List.filter_cons, hok, hrep, List.filterMap_cons,
            markRecords_append, List.flatMap_cons, List.append_assoc] <;>
          omega

lemma sync_pending_attendance_of_empty (transport : Transport) (now : String)
    (students : List Student) (subjects : List Subject) (db : AttendanceDB)
    (he : get_unsynced_attendance students subjects db = []) :
    sync_pending_attendance transport now students subjects db =
      ⟨db, true, "No pending attendance to sync", [], [], 0⟩ := by
  simp [sync_pending_attendance, he]

lemma sync_pending_attendance_fields (transport : Transport) (now : String)
    (students : List Student) (subjects : List Subject) (db : AttendanceDB)
    (hne : get_unsynced_attendance students subjects db ≠ []) :
    (sync_pending_attendance transport now students subjects db).db =
      markRecords (okIds transport now (get_unsynced_attendance students subjects db)
        (groupKeys (get_unsynced_attendance students subjects db))) db ∧
    (sync_pending_attendance transport now students subjects db).calls =
      (groupKeys (get_unsynced_attendance students subjects db)).filterMap
        (reportForKey now (get_unsynced_attendance students subjects db)) ∧
    (sync_pending_attendance transport now students subjects db).errors =
      ((groupKeys (get_unsynced_attendance students subjects db)).filter
        (fun k => !(keyOk transport now (get_unsynced_attendance students subjects db) k))).map
        (keyMsg transport now (get_unsynced_attendance students subjects db)) := by
  have hie : (get_unsynced_attendance students subjects db).isEmpty = false := by
    simpa [List.isEmpty_iff] using hne
  unfold sync_pending_attendance
  simp only [hie, Bool.false_eq_true, if_false]
  rw [foldl_syncStep_spec]
  split <;> simp

/-! ## Membership in the unsynced view -/

lemma joinRow_id (students : List Student) (subjects : List Subject)
    (a : AttendanceRecord) (row : JoinedRow)
    (h : joinRow students subjects a = some row) : row.id = a.id := by
  unfold joinRow at h
  rcases h1 : students.find? (fun s => s.id == a.student_id) with - | s <;>
    rcases h2 : subjects.find? (fun s => s.id == a.subject_id) with - | sub <;>
      rw [h1, h2] at h <;> simp at h
  rw [← h]

lemma mem_unsynced_view (students : List Student) (subjects : List Subject)
    (db : AttendanceDB) (row : JoinedRow) :
    row ∈ get_unsynced_attendance students subjects db ↔
      ∃ a ∈ db.records, a.synced = false ∧ joinRow students subjects a = some row := by
  unfold get_unsynced_attendance unsyncedRows
  rw [mem_sortBy, List.mem_filterMap]
  constructor
  · rintro ⟨a, ha, hj⟩
    have := List.mem_filter.mp ha
    exact ⟨a, this.1, by simpa using this.2, hj⟩
  · rintro ⟨a, ha, hs, hj⟩
    exact ⟨a, List.mem_filter.mpr ⟨ha, by simp [hs]⟩, hj⟩

lemma view_ids_sublist (students : List Student) (subjects : List Subject)
    (db : AttendanceDB) :
    List.Sublist ((unsyncedRows students subjects db).map (fun r => r.id))
      (db.records.map (fun r => r.id)) := by
  unfold unsyncedRows
  have h1 : List.Sublist
      (((db.records.filter (fun a => a.synced == false)).filterMap
        (joinRow students subjects)).map (fun r => r.id))
      ((db.records.filter (fun a => a.synced == false)).map (fun r => r.id)) := by
    generalize db.records.filter (fun a => a.synced == false) = l
    induction l with
    | nil => simp
    | cons a t ih =>
        cases hj : joinRow students subjects a with
        | none => simpa [List.filterMap_cons, hj] using ih.cons _
        | some row =>
            rw [List.filterMap_cons, hj]
            simp only [List.map_cons, joinRow_id students subjects a row hj]
            exact ih.cons₂ a.id
  exact h1.trans ((List.filter_sublist db.records).map (fun r => r.id))

lemma view_ids_nodup (students : List Student) (subjects : List Subject)
    (db : AttendanceDB) (h : (db.records.map (fun r => r.id)).Nodup) :
    ((get_unsynced_attendance students subjects db).map (fun r => r.id)).Nodup := by
  have hperm := (sortBy_perm rowLe (unsyncedRows students subjects db)).map (fun r => r.id)
  unfold get_unsynced_attendance
  rw [hperm.nodup_iff]
  exact (view_ids_sublist students subjects db).nodup h

lemma mem_groupKeys (rows : List JoinedRow) (k : String × Nat) :
    k ∈ groupKeys rows ↔ ∃ row ∈ rows, rowKey row = k := by
  unfold groupKeys
  rw [mem_sortBy, List.mem_dedup]
  constructor
  · intro h
    obtain ⟨row, hr, hk⟩ := List.mem_map.mp h
    exact ⟨row, hr, hk⟩
  · rintro ⟨row, hr, hk⟩
    exact List.mem_map.mpr ⟨row, hr, hk⟩

lemma mem_batchFor (rows : List JoinedRow) (k : String × Nat) (row : JoinedRow) :
    row ∈ batchFor rows k ↔ row ∈ rows ∧ rowKey row = k := by
  unfold batchFor
  rw [List.mem_filter]
  simp

lemma setSynced_synced (r : AttendanceRecord) :
    ({ r with synced := true } : AttendanceRecord).synced = true := rfl

lemma mem_okIds (transport : Transport) (now : String) (rows : List JoinedRow)
    (keys : List (String × Nat)) (i : Nat) :
    i ∈ okIds transport now rows keys ↔
      ∃ k ∈ keys, keyOk transport now rows k = true ∧
        ∃ row ∈ batchFor rows k, row.id = i := by
  simp only [okIds, List.mem_flatMap, List.mem_filter, List.mem_map]
  tauto

lemma reportForKey_none_iff (now : String) (rows : List JoinedRow) (k : String × Nat) :
    reportForKey now rows k = none ↔ batchFor rows k = [] := by
  unfold reportForKey
  cases batchFor rows k <;> simp

/-- If the transport did not confirm key `k`, no row of `k`'s batch has its
id among the marked ids (ledger ids assumed unique, as the SQL primary key
guarantees). -/
lemma failed_batch_id_not_marked (transport : Transport) (now : String)
    (students : List Student) (subjects : List Subject) (db : AttendanceDB)
    (hnodup : (db.records.map (fun r => r.id)).Nodup) (k : String × Nat)
    (hk : keyOk transport now (get_unsynced_attendance students subjects db) k = false)
    (row : JoinedRow)
    (hrow : row ∈ batchFor (get_unsynced_attendance students subjects db) k) :
    row.id ∉ okIds transport now (get_unsynced_attendance students subjects db)
      (groupKeys (get_unsynced_attendance students subjects db)) := by
  intro hmem
  obtain ⟨k2, hk2, hok2, row2, hrow2, hid⟩ :=
    (mem_okIds transport now _ _ _).mp hmem
  have hv := (mem_batchFor _ _ _).mp hrow
  have hv2 := (mem_batchFor _ _ _).mp hrow2
  have hrr : row2 = row :=
    List.inj_on_of_nodup_map (view_ids_nodup students subjects db hnodup)
      hv2.1 hv.1 hid
  rw [hrr] at hv2
  rw [hv.2] at hv2
  rw [← hv2.2] at hok2
  rw [hok2] at hk
  exact Bool.true_eq_false.mp hk

/-- Records of a failed batch survive a reconciliation run unchanged and
still pending. -/
lemma record_of_failed_batch (transport : Transport) (now : String)
    (students : List Student) (subjects : List Subject) (db : AttendanceDB)
    (hnodup : (db.records.map (fun r => r.id)).Nodup) (k : String × Nat)
    (hk : keyOk transport now (get_unsynced_attendance students subjects db) k = false)
    (row : JoinedRow)
    (hrow : row ∈ batchFor (get_unsynced_attendance students subjects db) k) :
    ∃ a ∈ db.records, a.synced = false ∧ a.id = row.id ∧
      a ∈ (markRecords (okIds transport now (get_unsynced_attendance students subjects db)
        (groupKeys (get_unsynced_attendance students subjects db))) db).records := by
  have hv := (mem_batchFor _ _ _).mp hrow
  obtain ⟨a, ha, hasync, hj⟩ := (mem_unsynced_view students subjects db row).mp hv.1
  have haid : row.id = a.id := joinRow_id students subjects a row hj
  have hnot : a.id ∉ okIds transport now (get_unsynced_attendance students subjects db)
      (groupKeys (get_unsynced_attendance students subjects db)) := by
    rw [← haid]
    exact failed_batch_id_not_marked transport now students subjects db hnodup k hk row hrow
  refine ⟨a, ha, hasync, haid.symm, ?_⟩
  unfold markRecords
  simpa using List.mem_map.mpr ⟨a, ha, by simp [hnot]⟩

/-- After a run, the batch of a failed key consists of exactly the same
rows as before the run. -/
lemma batch_unchanged_of_failed (transport : Transport) (now : String)
    (students : List Student) (subjects : List Subject) (db : AttendanceDB)
    (hnodup : (db.records.map (fun r => r.id)).Nodup) (k : String × Nat)
    (hk : keyOk transport now (get_unsynced_attendance students subjects db) k = false)
    (row : JoinedRow) :
    row ∈ batchFor (get_unsynced_attendance students subjects
        (markRecords (okIds transport now (get_unsynced_attendance students subjects db)
          (groupKeys (get_unsynced_attendance students subjects db))) db)) k ↔
      row ∈ batchFor (get_unsynced_attendance students subjects db) k := by
  constructor
  · intro h
    have hv := (mem_batchFor _ _ _).mp h
    obtain ⟨b, hb, hbsync, hbj⟩ := (mem_unsynced_view _ _ _ row).mp hv.1
    unfold markRecords at hb
    simp only [List.mem_map] at hb
    obtain ⟨a, ha, hfa⟩ := hb
    by_cases hin : a.id ∈ okIds transport now (get_unsynced_attendance students subjects db)
        (groupKeys (get_unsynced_attendance students subjects db))
    · rw [if_pos hin] at hfa
      rw [← hfa] at hbsync
      simp [setSynced_synced] at hbsync
    · rw [if_neg hin] at hfa
      subst hfa
      refine (mem_batchFor _ _ _).mpr ⟨?_, hv.2⟩
      exact (mem_unsynced_view students subjects db row).mpr ⟨a, ha, hbsync, hbj⟩
  · intro h
    have hv := (mem_batchFor _ _ _).mp h
    obtain ⟨a, ha, hasync, hj⟩ := (mem_unsynced_view students subjects db row).mp hv.1
    have haid : row.id = a.id := joinRow_id students subjects a row hj
    have hnot : a.id ∉ okIds transport now (get_unsynced_attendance students subjects db)
        (groupKeys (get_unsynced_attendance students subjects db)) := by
      rw [← haid]
      exact failed_batch_id_not_marked transport now students subjects db hnodup k hk row h
    refine (mem_batchFor _ _ _).mpr ⟨?_, hv.2⟩
    refine (mem_unsynced_view _ _ _ row).mpr ⟨a, ?_, hasync, hj⟩
    unfold markRecords
    simpa using List.mem_map.mpr ⟨a, ha, by simp [hnot]⟩

/-- If every report handed to the transport during a run was confirmed,
the unsynced view after the run is empty. -/
lemma view_empty_after_success (transport : Transport) (now : String)
    (students : List Student) (subjects : List Subject) (db : AttendanceDB)
    (hsucc : ∀ rep ∈ (sync_pending_attendance transport now students subjects db).calls,
      (transport rep).1 = true) :
    get_unsynced_attendance students subjects
      (sync_pending_attendance transport now students subjects db).db = [] := by
  by_cases he : get_unsynced_attendance students subjects db = []
  · rw [sync_pending_attendance_of_empty transport now students subjects db he]
    exact he
  · obtain ⟨hdb, hcalls, -⟩ :=
      sync_pending_attendance_fields transport now students subjects db he
    rw [hdb]
    rw [List.eq_nil_iff_forall_not_mem]
    intro row hrow
    obtain ⟨b, hb, hbsync, hbj⟩ := (mem_unsynced_view _ _ _ row).mp hrow
    unfold markRecords at hb
    simp only [List.mem_map] at hb
    obtain ⟨a, ha, hfa⟩ := hb
    by_cases hin : a.id ∈ okIds transport now (get_unsynced_attendance students subjects db)
        (groupKeys (get_unsynced_attendance students subjects db))
    · rw [if_pos hin] at hfa
      rw [← hfa] at hbsync
      simp [setSynced_synced] at hbsync
    · rw [if_neg hin] at hfa
      subst hfa
      have hview : row ∈ get_unsynced_attendance students subjects db :=
        (mem_unsynced_view students subjects db row).mpr ⟨a, ha, hbsync, hbj⟩
      have hkmem : rowKey row ∈ groupKeys (get_unsynced_attendance students subjects db) :=
        (mem_groupKeys _ _).mpr ⟨row, hview, rfl⟩
      have hbatch : row ∈ batchFor (get_unsynced_attendance students subjects db) (rowKey row) :=
        (mem_batchFor _ _ _).mpr ⟨hview, rfl⟩
      cases hrep : reportForKey now (get_unsynced_attendance students subjects db) (rowKey row) with
      | none =>
          rw [reportForKey_none_iff] at hrep
          rw [hrep] at hbatch
          exact absurd hbatch (List.not_mem_nil row)
      | some rep =>
          have hcall : rep ∈ (sync_pending_attendance transport now students subjects db).calls := by
            rw [hcalls]
            exact List.mem_filterMap.mpr ⟨rowKey row, hkmem, hrep⟩
          have hok : keyOk transport now (get_unsynced_attendance students subjects db)
              (rowKey row) = true := by
            unfold keyOk
            rw [hrep]
            exact hsucc rep hcall
          have haid : row.id = a.id := joinRow_id students subjects a row hbj
          refine hin ?_
          rw [← haid]
          exact (mem_okIds transport now _ _ _).mpr
            ⟨rowKey row, hkmem, hok, row, hbatch, rfl⟩

/-- Claim C4: running the reconciliation twice in a row with no new
attendance marked in between, where the first run's deliveries all
succeed, performs zero transport calls on the second run (its report list
is empty and the ledger does not change again) — even under a different
transport and clock. -/
theorem C4_second_run_makes_no_transport_calls (transport transport2 : Transport)
    (now now2 : String) (students : List Student) (subjects : List Subject)
    (db : AttendanceDB)
    (hsucc : ∀ rep ∈ (sync_pending_attendance transport now students subjects db).calls,
      (transport rep).1 = true) :
    (sync_pending_attendance transport2 now2 students subjects
        (sync_pending_attendance transport now students subjects db).db).calls = [] ∧
    (sync_pending_attendance transport2 now2 students subjects
        (sync_pending_attendance transport now students subjects db).db).db =
      (sync_pending_attendance transport now students subjects db).db := by
  have he := view_empty_after_success transport now students subjects db hsucc
  rw [sync_pending_attendance_of_empty transport2 now2 students subjects _ he]
  exact ⟨rfl, rfl⟩

/-- Witness for C4: a ledger with one pending record, delivered by an
always-succeeding transport; the second run hands nothing to the
transport. -/
theorem C4_witness :
    (sync_pending_attendance (fun _ => (true, "ok")) "12:00"
        [⟨1, "R1", "Alice", "CSE", 3, "A", "", none⟩] [⟨1, "ACT1", "Algo", "CSE", 3⟩]
        (sync_pending_attendance (fun _ => (true, "ok")) "12:00"
          [⟨1, "R1", "Alice", "CSE", 3, "A", "", none⟩] [⟨1, "ACT1", "Algo", "CSE", 3⟩]
          ⟨[⟨1, 1, 1, "2024-01-10", "09:00:00", "present", false⟩], 2⟩).db).calls = [] ∧
    (sync_pending_attendance (fun _ => (true, "ok")) "12:00"
        [⟨1, "R1", "Alice", "CSE", 3, "A", "", none⟩] [⟨1, "ACT1", "Algo", "CSE", 3⟩]
        (sync_pending_attendance (fun _ => (true, "ok")) "12:00"
          [⟨1, "R1", "Alice", "CSE", 3, "A", "", none⟩] [⟨1, "ACT1", "Algo", "CSE", 3⟩]
          ⟨[⟨1, 1, 1, "2024-01-10", "09:00:00", "present", false⟩], 2⟩).db).db =
      (sync_pending_attendance (fun _ => (true, "ok")) "12:00"
        [⟨1, "R1", "Alice", "CSE", 3, "A", "", none⟩] [⟨1, "ACT1", "Algo", "CSE", 3⟩]
        ⟨[⟨1, 1, 1, "2024-01-10", "09:00:00", "present", false⟩], 2⟩).db :=
  C4_second_run_makes_no_transport_calls (fun _ => (true, "ok")) (fun _ => (true, "ok"))
    "12:00" "12:00" [⟨1, "R1", "Alice", "CSE", 3, "A", "", none⟩]
    [⟨1, "ACT1", "Algo", "CSE", 3⟩]
    ⟨[⟨1, 1, 1, "2024-01-10", "09:00:00", "present", false⟩], 2⟩
    (fun _ _ => rfl)

/-- Claim C3: (i) a record is synced after a reconciliation run only if it
was already synced before, or the transport confirmed success for the
batch containing its row; (ii) a batch whose delivery the transport did
not confirm keeps every one of its records pending and unchanged, and the
batch reappears with exactly the same rows in the next run's view. -/
theorem C3_no_sync_without_transport_success (transport : Transport) (now : String)
    (students : List Student) (subjects : List Subject) (db : AttendanceDB)
    (hnodup : (db.records.map (fun r => r.id)).Nodup) :
    (∀ r2 ∈ (sync_pending_attendance transport now students subjects db).db.records,
       r2.synced = true →
       (∃ r1 ∈ db.records, r1.id = r2.id ∧ r1.synced = true) ∨
       (∃ k ∈ groupKeys (get_unsynced_attendance students subjects db),
          keyOk transport now (get_unsynced_attendance students subjects db) k = true ∧
          r2.id ∈ (batchFor (get_unsynced_attendance students subjects db) k).map
            (fun r => r.id))) ∧
    (∀ k ∈ groupKeys (get_unsynced_attendance students subjects db),
       keyOk transport now (get_unsynced_attendance students subjects db) k = false →
       (∀ row ∈ batchFor (get_unsynced_attendance students subjects db) k,
          ∃ r1 ∈ db.records, r1.synced = false ∧ r1.id = row.id ∧
            r1 ∈ (sync_pending_attendance transport now students subjects db).db.records) ∧
       (∀ row, row ∈ batchFor (get_unsynced_attendance students subjects
            (sync_pending_attendance transport now students subjects db).db) k ↔
          row ∈ batchFor (get_unsynced_attendance students subjects db) k)) := by
  by_cases he : get_unsynced_attendance students subjects db = []
  · rw [sync_pending_attendance_of_empty transport now students subjects db he]
    constructor
    · intro r2 hr2 hs2
      exact Or.inl ⟨r2, hr2, rfl, hs2⟩
    · intro k hk
      rw [he] at hk
      simp [groupKeys, sortBy] at hk
  · obtain ⟨hdb, -, -⟩ :=
      sync_pending_attendance_fields transport now students subjects db he
    constructor
    · intro r2 hr2 hs2
      rw [hdb] at hr2
      unfold markRecords at hr2
      simp only [List.mem_map] at hr2
      obtain ⟨a, ha, hfa⟩ := hr2
      by_cases hin : a.id ∈ okIds transport now (get_unsynced_attendance students subjects db)
          (groupKeys (get_unsynced_attendance students subjects db))
      · rw [if_pos hin] at hfa
        obtain ⟨k, hkm, hok, row, hrow, hrowid⟩ := (mem_okIds transport now _ _ _).mp hin
        refine Or.inr ⟨k, hkm, hok, ?_⟩
        refine List.mem_map.mpr ⟨row, hrow, ?_⟩
        rw [hrowid, ← hfa]
      · rw [if_neg hin] at hfa
        subst hfa
        exact Or.inl ⟨a, ha, rfl, hs2⟩
    · intro k hk hok
      constructor
      · intro row hrow
        obtain ⟨a, ha, hasync, haid, hmark⟩ :=
          record_of_failed_batch transport now students subjects db hnodup k hok row hrow
        refine ⟨a, ha, hasync, haid, ?_⟩
        rw [hdb]
        exact hmark
      · intro row
        rw [hdb]
        exact batch_unchanged_of_failed transport now students subjects db hnodup k hok row

/-- Claim C5: a batch the transport confirms has all its records synced
after the run regardless of other batches failing; a batch the transport
rejects keeps its records pending, and its failure reason is in the run's
`error_messages` accumulator. -/
theorem C5_batch_failures_are_isolated (transport : Transport) (now : String)
    (students : List Student) (subjects : List Subject) (db : AttendanceDB)
    (hnodup : (db.records.map (fun r => r.id)).Nodup) :
    (∀ k ∈ groupKeys (get_unsynced_attendance students subjects db),
       keyOk transport now (get_unsynced_attendance students subjects db) k = true →
       ∀ row ∈ batchFor (get_unsynced_attendance students subjects db) k,
         ∃ r2 ∈ (sync_pending_attendance transport now students subjects db).db.records,
           r2.id = row.id ∧ r2.synced = true) ∧
    (∀ k ∈ groupKeys (get_unsynced_attendance students subjects db),
       keyOk transport now (get_unsynced_attendance students subjects db) k = false →
       (∀ row ∈ batchFor (get_unsynced_attendance students subjects db) k,
          ∃ r1 ∈ (sync_pending_attendance transport now students subjects db).db.records,
            r1.id = row.id ∧ r1.synced = false) ∧
       (∀ rep, reportForKey now (get_unsynced_attendance students subjects db) k = some rep →
          (transport rep).2 ∈
            (sync_pending_attendance transport now students subjects db).errors)) := by
  constructor
  · intro k hk hok row hrow
    have hv := (mem_batchFor _ _ _).mp hrow
    have he : get_unsynced_attendance students subjects db ≠ [] :=
      List.ne_nil_of_mem hv.1
    obtain ⟨hdb, -, -⟩ :=
      sync_pending_attendance_fields transport now students subjects db he
    obtain ⟨a, ha, hasync, hj⟩ := (mem_unsynced_view students subjects db row).mp hv.1
    have haid : row.id = a.id := joinRow_id students subjects a row hj
    have hin : a.id ∈ okIds transport now (get_unsynced_attendance students subjects db)
        (groupKeys (get_unsynced_attendance students subjects db)) :=
      (mem_okIds transport now _ _ _).mpr ⟨k, hk, hok, row, hrow, haid⟩
    refine ⟨{ a with synced := true }, ?_, ?_, setSynced_synced a⟩
    · rw [hdb]
      unfold markRecords
      simpa using List.mem_map.mpr ⟨a, ha, by simp [hin]⟩
    · rw [setSynced_id, haid]
  · intro k hk hok
    have he : get_unsynced_attendance students subjects db ≠ [] := by
      obtain ⟨row0, hrow0, -⟩ := (mem_groupKeys _ _).mp hk
      exact List.ne_nil_of_mem hrow0
    obtain ⟨hdb, -, herr⟩ :=
      sync_pending_attendance_fields transport now students subjects db he
    constructor
    · intro row hrow
      obtain ⟨a, ha, hasync, haid, hmark⟩ :=
        record_of_failed_batch transport now students subjects db hnodup k hok row hrow
      refine ⟨a, ?_, haid, hasync⟩
      rw [hdb]
      exact hmark
    · intro rep hrep
      rw [herr]
      refine List.mem_map.mpr ⟨k, List.mem_filter.mpr ⟨hk, by simp [hok]⟩, ?_⟩
      unfold keyMsg
      rw [hrep]

/-- Witness for C3 at Scenario D: instantiates the theorem at a concrete
ledger whose ACT1 batch fails delivery. -/
theorem C3_witness :
    ((wDB.records.map (fun r => r.id)).Nodup) ∧
    ((∀ r2 ∈ (sync_pending_attendance wTransport "12:00" wStudents wSubjects wDB).db.records,
       r2.synced = true →
       (∃ r1 ∈ wDB.records, r1.id = r2.id ∧ r1.synced = true) ∨
       (∃ k ∈ groupKeys (get_unsynced_attendance wStudents wSubjects wDB),
          keyOk wTransport "12:00" (get_unsynced_attendance wStudents wSubjects wDB) k = true ∧
          r2.id ∈ (batchFor (get_unsynced_attendance wStudents wSubjects wDB) k).map
            (fun r => r.id))) ∧
    (∀ k ∈ groupKeys (get_unsynced_attendance wStudents wSubjects wDB),
       keyOk wTransport "12:00" (get_unsynced_attendance wStudents wSubjects wDB) k = false →
       (∀ row ∈ batchFor (get_unsynced_attendance wStudents wSubjects wDB) k,
          ∃ r1 ∈ wDB.records, r1.synced = false ∧ r1.id = row.id ∧
            r1 ∈ (sync_pending_attendance wTransport "12:00" wStudents wSubjects wDB).db.records) ∧
       (∀ row, row ∈ batchFor (get_unsynced_attendance wStudents wSubjects
            (sync_pending_attendance wTransport "12:00" wStudents wSubjects wDB).db) k ↔
          row ∈ batchFor (get_unsynced_attendance wStudents wSubjects wDB) k))) :=
  ⟨by decide,
   C3_no_sync_without_transport_success wTransport "12:00" wStudents wSubjects wDB (by decide)⟩

/-- Witness for C5 at Scenario D: instantiates the theorem at a concrete
ledger with two batches of which exactly one (ACT1) fails. -/
theorem C5_witness :
    ((wDB.records.map (fun r => r.id)).Nodup) ∧
    ((∀ k ∈ groupKeys (get_unsynced_attendance wStudents wSubjects wDB),
       keyOk wTransport "12:00" (get_unsynced_attendance wStudents wSubjects wDB) k = true →
       ∀ row ∈ batchFor (get_unsynced_attendance wStudents wSubjects wDB) k,
         ∃ r2 ∈ (sync_pending_attendance wTransport "12:00" wStudents wSubjects wDB).db.records,
           r2.id = row.id ∧ r2.synced = true) ∧
    (∀ k ∈ groupKeys (get_unsynced_attendance wStudents wSubjects wDB),
       keyOk wTransport "12:00" (get_unsynced_attendance wStudents wSubjects wDB) k = false →
       (∀ row ∈ batchFor (get_unsynced_attendance wStudents wSubjects wDB) k,
          ∃ r1 ∈ (sync_pending_attendance wTransport "12:00" wStudents wSubjects wDB).db.records,
            r1.id = row.id ∧ r1.synced = false) ∧
       (∀ rep, reportForKey "12:00" (get_unsynced_attendance wStudents wSubjects wDB) k = some rep →
          (wTransport rep).2 ∈
            (sync_pending_attendance wTransport "12:00" wStudents wSubjects wDB).errors))) :=
  ⟨by decide,
   C5_batch_failures_are_isolated wTransport "12:00" wStudents wSubjects wDB (by decide)⟩

lemma val_str_beq (a b : String) : (Val.str a == Val.str b) = (a == b) := by
  by_cases h : a = b <;> simp [h]

lemma val_int_beq (a b : Int) : (Val.int a == Val.int b) = (a == b) := by
  by_cases h : a = b <;> simp [h]

lemma optCond_snd (t : CondTag) (ov : Option Val) (v : Val)
    (h : v ∈ (optCond t ov).map Prod.snd) : ov = some v := by
  cases ov with
  | none => simp [optCond] at h
  | some x =>
      unfold optCond at h
      by_cases ht : x.truthy = true <;> simp [ht] at h
      rw [h]

lemma mem_orgConds_snd (f : StatsFilters) (v : Val)
    (h : v ∈ (orgConds f).map Prod.snd) : (some v) ∈ orgRaw f := by
  unfold orgConds at h
  simp only [List.map_append, List.mem_append] at h
  rcases h with (h | h) | h
  · rw [← optCond_snd _ _ _ h]; simp [orgRaw]
  · rw [← optCond_snd _ _ _ h]; simp [orgRaw]
  · rw [← optCond_snd _ _ _ h]; simp [orgRaw]

lemma keptParams_eq (f : StatsFilters)
    (hnc : ∀ v ∈ (dsConds f).map Prod.snd, (some v) ∉ orgRaw f) :
    keptParams f = (orgConds f).map Prod.snd := by
  unfold keptParams allConds
  rw [List.map_append, List.filter_append]
  have h1 : ((dsConds f).map Prod.snd).filter (fun p => (some p) ∈ orgRaw f) = [] := by
    rw [List.filter_eq_nil_iff]
    intro v hv
    simpa using hnc v hv
  have h2 : ((orgConds f).map Prod.snd).filter (fun p => (some p) ∈ orgRaw f) =
      (orgConds f).map Prod.snd := by
    rw [List.filter_eq_self]
    intro v hv
    simpa using mem_orgConds_snd f v hv
  rw [h1, h2, List.nil_append]

lemma orgConds_all_eq (f : StatsFilters) (s : Student) :
    (orgConds f).all (fun c => evalStudentCond c.1 c.2 s) = orgMatch f s := by
  unfold orgConds orgMatch
  rw [List.all_append, List.all_append]
  have hb : (optCond .branch (f.branch.map Val.str)).all
      (fun c => evalStudentCond c.1 c.2 s) =
      (match f.branch with
       | some b => if b != "" then s.branch == b else true
       | none => true) := by
    cases hB : f.branch with
    | none => simp [optCond]
    | some b =>
        by_cases ht : (b != "") = true <;>
          simp [optCond, Val.truthy, ht, evalStudentCond, val_str_beq]
  have hm : (optCond .semester (f.semester.map Val.int)).all
      (fun c => evalStudentCond c.1 c.2 s) =
      (match f.semester with
       | some m => if m != 0 then s.semester == m else true
       | none => true) := by
    cases hM : f.semester with
    | none => simp [optCond]
    | some m =>
        by_cases ht : (m != 0) = true <;>
          simp [optCond, Val.truthy, ht, evalStudentCond, val_int_beq]
  have hc : (optCond .sect (f.sect.map Val.str)).all
      (fun c => evalStudentCond c.1 c.2 s) =
      (match f.sect with
       | some c => if c != "" then s.sect == c else true
       | none => true) := by
    cases hC : f.sect with
    | none => simp [optCond]
    | some c =>
        by_cases ht : (c != "") = true <;>
          simp [optCond, Val.truthy, ht, evalStudentCond, val_str_beq]
  rw [hb, hm, hc]

lemma total_query_eq (f : StatsFilters) (students : List Student)
    (hnc : ∀ v ∈ (dsConds f).map Prod.snd, (some v) ∉ orgRaw f) :
    total_query_result f students =
      some (countDistinctIds ((students.filter (orgMatch f)).map (fun s => s.id))) := by
  unfold total_query_result
  rw [keptParams_eq f hnc]
  have hz : ((orgConds f).map Prod.fst).zip ((orgConds f).map Prod.snd) = orgConds f :=
    Eq.symm (List.zip_of_prod rfl rfl)
  rw [if_pos (by simp), hz]
  have hf : students.filter (fun s => (orgConds f).all (fun c => evalStudentCond c.1 c.2 s)) =
      students.filter (orgMatch f) :=
    List.filter_congr (fun s _ => orgConds_all_eq f s)
  rw [hf]

/-- Claim C8, counterexample: filtering by subject_id = 2 together with
semester = 2 (equal filter VALUES), on a store of three semester-2
students, returns all-zero statistics — the value-based parameter filter
`[p for p in params if p in [branch, semester, section]]` keeps both the
subject parameter and the semester parameter for the one-placeholder
total query, sqlite raises on the binding mismatch, and the handler
returns zeros — while the claim requires `total` to be the count of
identities matching the organizational filters, here 3. -/
theorem C8_counterexample :
    get_attendance_stats ⟨none, some 2, none, some 2, none⟩ c8Students c8DB = ⟨0, 0, 0⟩ ∧
    countDistinctIds ((c8Students.filter
      (orgMatch ⟨none, some 2, none, some 2, none⟩)).map (fun s => s.id)) = 3 ∧
    (0 : Int) ≠ 3 := by decide

/-- Claim C8 as amended: provided no truthy date/activity filter value
coincides with a provided organizational filter value (so the buggy
value-based parameter filter keeps exactly the organizational
parameters), the stats result satisfies the claim: `total` is the count
of distinct identities matching the organizational filters independent
of attendance, `present` is the count of distinct identities with a
present-status record matching all filters, and
`absent = total - present`.  When the values do collide, the total query
raises a binding error and the result is all zeros. -/
theorem C8_stats_correct_without_value_collision (f : StatsFilters)
    (students : List Student) (db : AttendanceDB)
    (hnc : ∀ v ∈ (dsConds f).map Prod.snd, (some v) ∉ orgRaw f) :
    (get_attendance_stats f students db).total =
      Int.ofNat (countDistinctIds ((students.filter (orgMatch f)).map (fun s => s.id))) ∧
    (get_attendance_stats f students db).present =
      Int.ofNat (present_query_result f students db) ∧
    (get_attendance_stats f students db).absent =
      (get_attendance_stats f students db).total -
        (get_attendance_stats f students db).present := by
  unfold get_attendance_stats
  rw [total_query_eq f students hnc]
  exact ⟨rfl, rfl, rfl⟩

/-- Witness for the amended C8 at Scenario E: filtering by one activity
on a store of three identities, two of them present for that activity. -/
theorem C8_witness :
    (∀ v ∈ (dsConds ⟨none, some 1, none, none, none⟩).map Prod.snd,
      (some v) ∉ orgRaw ⟨none, some 1, none, none, none⟩) ∧
    ((get_attendance_stats ⟨none, some 1, none, none, none⟩ c8Students c8DBScenE).total =
      Int.ofNat (countDistinctIds ((c8Students.filter
        (orgMatch ⟨none, some 1, none, none, none⟩)).map (fun s => s.id))) ∧
    (get_attendance_stats ⟨none, some 1, none, none, none⟩ c8Students c8DBScenE).present =
      Int.ofNat (present_query_result ⟨none, some 1, none, none, none⟩ c8Students c8DBScenE) ∧
    (get_attendance_stats ⟨none, some 1, none, none, none⟩ c8Students c8DBScenE).absent =
      (get_attendance_stats ⟨none, some 1, none, none, none⟩ c8Students c8DBScenE).total -
        (get_attendance_stats ⟨none, some 1, none, none, none⟩ c8Students c8DBScenE).present) :=
  ⟨by decide,
   C8_stats_correct_without_value_collision ⟨none, some 1, none, none, none⟩
     c8Students c8DBScenE (by decide)⟩

example :
    get_attendance_stats ⟨none, some 1, none, none, none⟩ c8Students c8DBScenE =
      ⟨3, 2, 1⟩ := by decide
